import Mathlib

/-!
Shallow embedding of the TokenLogin two-factor login package
(`tokenlogin-server.js`).  The repository ships two variants of the server
class: one keying verification sessions by the client connection id
(namespace `Conn` below, the file that defines `requestTokenAsync`) and one
keying them by the Mongo document id (namespace `Sid` below).  Mongo
collections are modelled as `List Session`, timestamps as `Int`
milliseconds, and the external inputs of the code (`Random.id`, the clock,
the user-defined channel send functions) as explicit parameters.
-/

/-- A document of the session collection.  `createSession` inserts `token`,
`factor`, `expireAt` and the principal id (plus `connectionId` in the
connectionId variant); `verifyAt` is set by `verifyToken`.  The `createdAt`
field is carried so that its absence in every inserted document can be
stated: the code never writes it, which the embedding renders as `none`. -/
structure Session where
  _id : String
  token : String
  factor : String
  userId : String
  connectionId : Option String
  expireAt : Option Int
  verifyAt : Option Int
  createdAt : Option Int
deriving DecidableEq

/-- The expiry test `(new Date() - new Date(session.expireAt)) > 0`: with
`expireAt` a date this is `expireAt < now`; with `expireAt` absent the JS
difference is `NaN` and the comparison is `false`. -/
def isExpiredJs (now : Int) (expireAt : Option Int) : Bool :=
  match expireAt with
  | some e => decide (e < now)
  | none => false

/-- The modifier of
`collection.update(id, {$set: {verifyAt: new Date()}, $unset: {expireAt: true}})`
applied to a single document selected by `_id`. -/
def updFn (id : String) (now : Int) (s : Session) : Session :=
  if s._id == id then { s with verifyAt := some now, expireAt := none } else s

/-- Effect of that update on the whole collection. -/
def markVerifiedUpdate (coll : List Session) (id : String) (now : Int) : List Session :=
  coll.map (updFn id now)

/-- A JavaScript value, as far as the `check`/`Match` patterns of
`validateConfig` and `addFactor` distinguish values.  `fn` carries a tag
standing for function identity, `obj` carries the `timeout` entry that
`get(method, 'settings.timeout')` reads, `int` carries the numeric value,
`numOther` is a non-integer number. -/
inductive JsVal
  | fn (tag : String)
  | obj (timeoutSetting : Option Int)
  | str (s : String)
  | int (n : Int)
  | numOther
  | other
deriving DecidableEq

/-- The value stored under a factor name: `{send, settings}`. -/
structure FactorCfg where
  send : Option JsVal
  settings : Option JsVal
deriving DecidableEq

/-- The pattern `Function`. -/
def matchFn : Option JsVal → Bool
  | some (.fn _) => true
  | _ => false

/-- The pattern `Match.Maybe(Function)`. -/
def maybeFn : Option JsVal → Bool
  | none => true
  | some (.fn _) => true
  | _ => false

/-- The pattern `Match.Maybe(Object)`. -/
def maybeObj : Option JsVal → Bool
  | none => true
  | some (.obj _) => true
  | _ => false

/-- The pattern `Match.Maybe(String)`. -/
def maybeStr : Option JsVal → Bool
  | none => true
  | some (.str _) => true
  | _ => false

/-- The pattern `Match.Maybe(Match.Integer)`: absent, or an integer of any
sign — `Match.Integer` does not test positivity. -/
def maybeInt : Option JsVal → Bool
  | none => true
  | some (.int _) => true
  | _ => false

/-- The effective configuration object (the shape of `defaultConfig` in the
connectionId variant, lines 74–96). -/
structure Config where
  factors : List (String × FactorCfg)
  generate : Option JsVal
  validate : Option JsVal
  settings : Option JsVal
  timeout : Int
  expiry : Int
  retain : Int
  requestInterval : Int
  requestCount : Int
  profile : String
deriving DecidableEq

/-- The module-level `defaultConfig` object of the connectionId variant. -/
def defaultConfig : Config :=
  { factors := [("default", { send := some (.fn "defaultSend"), settings := some (.obj (some 5000)) })]
    generate := some (.fn "randomId6")
    validate := some (.fn "alwaysTrue")
    settings := none
    timeout := 1000
    expiry := 300000
    retain := 604800000
    requestInterval := 10000
    requestCount := 1
    profile := "TokenLogin" }

/-- A caller-supplied configuration object as received by `validateConfig`
(`none` fields are absent keys). -/
structure ConfigIn where
  factors : List (String × FactorCfg)
  generate : Option JsVal
  validate : Option JsVal
  settings : Option JsVal
  expiry : Option JsVal
  retain : Option JsVal
  requestInterval : Option JsVal
  requestCount : Option JsVal
  profile : Option JsVal
deriving DecidableEq

/-- Pattern `check(factor, {send: Function, settings: Match.Maybe(Object)})` in
`addFactor`. -/
def addFactorOk (f : FactorCfg) : Bool :=
  matchFn f.send && maybeObj f.settings

/-- Assignment `this.config.factors[key] = factor` (overwrites an existing key). -/
def setFactor (factors : List (String × FactorCfg)) (key : String) (f : FactorCfg) :
    List (String × FactorCfg) :=
  if factors.any (fun p => p.1 == key) then
    factors.map (fun p => if p.1 == key then (key, f) else p)
  else factors ++ [(key, f)]

/-- Model of `addFactor(factor, key)`: the `check` throws (`some` error) on a
malformed factor, otherwise the factor is stored in the shared config. -/
def addFactor (cfg : Config) (key : String) (f : FactorCfg) : Config × Option String :=
  if addFactorOk f then ({ cfg with factors := setFactor cfg.factors key f }, none)
  else (cfg, some "Match error")

/-- Iteration `_.each(config.factors, (factor, key) => this.addFactor(factor, key))`:
iteration stops at the first throw, keeping factors added before it. -/
def addFactors (cfg : Config) : List (String × FactorCfg) → Config × Option String
  | [] => (cfg, none)
  | (k, f) :: rest =>
    match addFactor cfg k f with
    | (cfg', none) => addFactors cfg' rest
    | (cfg', some e) => (cfg', some e)

/-- The `check(config, {...})` pattern of `validateConfig`, applied after
`delete config.factors`. -/
def checkConfigShape (c : ConfigIn) : Bool :=
  maybeFn c.generate && maybeFn c.validate && maybeObj c.settings &&
  maybeInt c.expiry && maybeInt c.retain && maybeInt c.requestInterval &&
  maybeInt c.requestCount && maybeStr c.profile

/-- Merge step of `Object.assign` for an integer field. -/
def overInt (old : Int) : Option JsVal → Int
  | some (.int n) => n
  | _ => old

/-- Merge step of `Object.assign` for the `profile` string field. -/
def overStr (old : String) : Option JsVal → String
  | some (.str s) => s
  | _ => old

/-- Merge step of `Object.assign` for the function/object fields. -/
def overVal (old : Option JsVal) : Option JsVal → Option JsVal
  | some v => some v
  | none => old

/-- Model of `validateConfig(config)`: add the supplied factors one by one, `check`
the remaining shape, then `Object.assign(this.config, config)`.  The second
component is the error thrown, if any; the first is the state of the shared
configuration object afterwards. -/
def validateConfig (cfg : Config) (c : ConfigIn) : Config × Option String :=
  match addFactors cfg c.factors with
  | (cfg', some e) => (cfg', some e)
  | (cfg', none) =>
    if checkConfigShape c then
      ({ cfg' with
          generate := overVal cfg'.generate c.generate
          validate := overVal cfg'.validate c.validate
          settings := overVal cfg'.settings c.settings
          expiry := overInt cfg'.expiry c.expiry
          retain := overInt cfg'.retain c.retain
          requestInterval := overInt cfg'.requestInterval c.requestInterval
          requestCount := overInt cfg'.requestCount c.requestCount
          profile := overStr cfg'.profile c.profile }, none)
    else (cfg', some "Match error")

/-- Process-wide state: `defaultConfig` is a single module-level object and
the constructor runs `this.config = defaultConfig`, storing a reference, so
every instance aliases the same configuration object. -/
structure ProcState where
  sharedConfig : Config
  instances : List String
deriving DecidableEq

/-- Constructor `new TokenLogin(identifier, config)` (configuration part):
`this.config = defaultConfig; this.validateConfig(config)` mutates the
shared object in place. -/
def constructInstance (st : ProcState) (identifier : String) (c : ConfigIn) :
    ProcState × Option String :=
  let r := validateConfig st.sharedConfig c
  ({ sharedConfig := r.1, instances := st.instances ++ [identifier] }, r.2)

/-- The configuration an existing instance reads through its `this.config`
reference: the shared object, whatever instance is asking. -/
def observeConfig (st : ProcState) (identifier : String) : Config :=
  st.sharedConfig

/-- Console output of `sendToken`. -/
inductive LogEvent
  | notSupported (factor : String)
  | tokenPrinted (token : String)
deriving DecidableEq

/-- An invocation of the caller's callback: `(err, res)`. -/
inductive CbArg
  | err (msg : String)
  | ok (res : String)
deriving DecidableEq

/-- A JavaScript exception; `method.send` on an unregistered factor
dereferences `undefined` and throws a `TypeError`. -/
inductive JsError
  | typeError
deriving DecidableEq

/-- What one synchronous run of the connectionId-variant `sendToken` does:
console logs, the `Meteor.setTimeout` it schedules (delay and the argument
the timer will pass to the callback), callback invocations made before
returning, and the exception thrown, if any. -/
structure SendTrace where
  logs : List LogEvent
  timerScheduled : Option (Int × CbArg)
  syncCalls : List CbArg
  thrown : Option JsError
deriving DecidableEq

/-- The timeout error message. -/
def timeoutMsg (contact factor : String) : String :=
  s!"sending token to {contact} via {factor} timed out"

/-- Callback invocations over the whole execution: the synchronous ones
plus the scheduled `Meteor.setTimeout` callback, which fires even when the
synchronous part of `sendToken` threw (a throw does not clear the timer). -/
def eventualCalls (t : SendTrace) : List CbArg :=
  t.syncCalls ++ (match t.timerScheduled with
                  | some p => [p.2]
                  | none => [])

/-- Lookup `get(method, 'settings.timeout')`. -/
def settingsTimeout (f : FactorCfg) : Option Int :=
  match f.settings with
  | some (.obj t) => t
  | _ => none

namespace Conn

/-- Query `collection.findOne({connectionId: connectionId, userId: user._id})`. -/
def findSession (coll : List Session) (connectionId userId : String) : Option Session :=
  coll.find? (fun s => s.connectionId == some connectionId && s.userId == userId)

/-- Model of `assertOpenSession(user, connectionId)` (connectionId variant). -/
def assertOpenSession (coll : List Session) (userId connectionId : String) (now : Int) : Bool :=
  match findSession coll connectionId userId with
  | none => false
  | some session =>
    if session.verifyAt.isSome then false
    else if isExpiredJs now session.expireAt then false
    else true

/-- Model of `verifyToken(user, connectionId, token)` (connectionId variant):
`findOne`, four checks, then an update whose selector is only
`session._id` — no still-unverified precondition. -/
def verifyToken (coll : List Session) (userId connectionId token : String) (now : Int) :
    Bool × List Session :=
  match findSession coll connectionId userId with
  | none => (false, coll)
  | some session =>
    if session.verifyAt.isSome then (false, coll)
    else if isExpiredJs now session.expireAt then (false, coll)
    else if session.token != token then (false, coll)
    else (true, markVerifiedUpdate coll session._id now)

/-- Model of `createSession(connectionId, user, token, factor)` (connectionId
variant); `newId` is the id generated by `collection.insert`, `now` the
clock reading. -/
def createSession (cfg : Config) (coll : List Session)
    (connectionId userId token factor newId : String) (now : Int) :
    String × List Session :=
  (newId,
   coll ++ [{ _id := newId, token := token, factor := factor, userId := userId,
              connectionId := some connectionId,
              expireAt := some (now + cfg.expiry), verifyAt := none, createdAt := none }])

/-- Model of `invalidateSession(connectionId)` (connectionId variant):
`collection.remove({connectionId, verifyAt: {$exists: false}})`, returning
the number of removed documents. -/
def invalidateSession (coll : List Session) (connectionId : String) : Nat × List Session :=
  ((coll.filter (fun s => s.connectionId == some connectionId && s.verifyAt == none)).length,
   coll.filter (fun s => !(s.connectionId == some connectionId && s.verifyAt == none)))

/-- Model of `sendToken(contact, token, factor, callback)` (connectionId variant).
`chanAction` is what the user-defined channel `send` does synchronously
with its callback (`none`: it never calls back).  For an unregistered
factor the token is logged, the timeout timer is still scheduled (with the
global `config.timeout`, since `get(undefined, ...)` is `undefined`), and
`method.send` then throws a `TypeError`. -/
def sendToken (cfg : Config) (contact token factor : String) (chanAction : Option CbArg) :
    SendTrace :=
  match cfg.factors.lookup factor with
  | none =>
    { logs := [.notSupported factor, .tokenPrinted token]
      timerScheduled := some (cfg.timeout, .err (timeoutMsg contact factor))
      syncCalls := []
      thrown := some .typeError }
  | some method =>
    let tmo := match settingsTimeout method with
               | some t => if t == 0 then cfg.timeout else t
               | none => cfg.timeout
    { logs := []
      timerScheduled := some (tmo, .err (timeoutMsg contact factor))
      syncCalls := match chanAction with
                   | some (.err m) => [.err m]
                   | some (.ok r) => [.ok r]
                   | none => []
      thrown := none }

/-- Model of `requestTokenAsync(connectionId, user, contact, factor, callback)`:
create the session, then send; the insert is never rolled back, whatever
the delivery does. -/
def requestTokenAsync (cfg : Config) (coll : List Session)
    (connectionId userId contact factor token newId : String) (now : Int)
    (chanAction : Option CbArg) : List Session × SendTrace :=
  let created := createSession cfg coll connectionId userId token factor newId now
  (created.2, sendToken cfg contact token factor chanAction)

/-- Body of the `requestToken` Meteor method after the user lookup: the
unsupported-factor guard, `invalidateSession(this.connection.id)`, then the
wrapped `requestTokenAsync`. -/
def requestTokenMethod (cfg : Config) (coll : List Session)
    (connectionId userId contact factor token newId : String) (now : Int)
    (chanAction : Option CbArg) : List Session × Except String SendTrace :=
  if (cfg.factors.lookup factor).isNone then (coll, .error (factor ++ " not supported"))
  else
    let inv := invalidateSession coll connectionId
    let r := requestTokenAsync cfg inv.2 connectionId userId contact factor token newId now chanAction
    (r.1, .ok r.2)

end Conn

namespace Sid

/-- Query `collection.findOne({_id: sessionId, user: user._id})` (the sessionId
variant stores the principal under the `user` key, modelled as `userId`). -/
def findSession (coll : List Session) (sessionId userId : String) : Option Session :=
  coll.find? (fun s => s._id == sessionId && s.userId == userId)

/-- Model of `assertOpenSession(user, sessionId)` (sessionId variant). -/
def assertOpenSession (coll : List Session) (userId sessionId : String) (now : Int) : Bool :=
  match findSession coll sessionId userId with
  | none => false
  | some session =>
    if session.verifyAt.isSome then false
    else if isExpiredJs now session.expireAt then false
    else true

/-- Model of `verifyToken(user, sessionId, token)` (sessionId variant); the update
selector is the `sessionId` argument, again with no precondition. -/
def verifyToken (coll : List Session) (userId sessionId token : String) (now : Int) :
    Bool × List Session :=
  match findSession coll sessionId userId with
  | none => (false, coll)
  | some session =>
    if session.verifyAt.isSome then (false, coll)
    else if isExpiredJs now session.expireAt then (false, coll)
    else if session.token != token then (false, coll)
    else (true, markVerifiedUpdate coll sessionId now)

/-- Model of `createSession(user, token, factor)` (sessionId variant): no
`connectionId` is stored. -/
def createSession (cfg : Config) (coll : List Session)
    (userId token factor newId : String) (now : Int) : String × List Session :=
  (newId,
   coll ++ [{ _id := newId, token := token, factor := factor, userId := userId,
              connectionId := none,
              expireAt := some (now + cfg.expiry), verifyAt := none, createdAt := none }])

/-- Model of `invalidateSession(sessionId)` (sessionId variant):
`collection.remove({_id: sessionId})` — no `verifyAt` condition at all. -/
def invalidateSession (coll : List Session) (sessionId : String) : Nat × List Session :=
  ((coll.filter (fun s => s._id == sessionId)).length,
   coll.filter (fun s => !(s._id == sessionId)))

/-- Model of `sendToken(contact, token, factor)` (sessionId variant): for an
unregistered factor the token is logged and `method.send` throws a
`TypeError`; otherwise the user-defined send runs (an external effect). -/
def sendToken (cfg : Config) (contact token factor : String) :
    List LogEvent × Option JsError :=
  match cfg.factors.lookup factor with
  | none => ([.notSupported factor, .tokenPrinted token], some .typeError)
  | some _ => ([], none)

/-- Model of `requestToken(user, contactAddress, contactMethod)` (sessionId
variant): generate, insert, send, return the session id.  There is no
invalidation of prior sessions, and a `sendToken` throw propagates after
the insert already happened. -/
def requestToken (cfg : Config) (coll : List Session)
    (userId contact factor token newId : String) (now : Int) :
    List Session × Except JsError String :=
  let created := createSession cfg coll userId token factor newId now
  match (sendToken cfg contact token factor).2 with
  | some e => (created.2, .error e)
  | none => (created.2, .ok created.1)

end Sid

/-- One `verifyToken` call (sessionId variant) in the race model. -/
structure VCall where
  userId : String
  sessionId : String
  token : String
  now : Int
deriving DecidableEq

/-- Progress of one call: not yet read, holding its `findOne` snapshot, or
returned. -/
inductive VPhase
  | start
  | read (snapshot : Option Session)
  | done (result : Bool)
deriving DecidableEq

/-- One atomic database operation of `verifyToken`: the `findOne`, or the
in-memory checks followed by the `update` on the snapshot.  The update's
selector is only the id, so the second step writes unconditionally once the
snapshot passed the checks. -/
def vstep (c : VCall) (coll : List Session) : VPhase → List Session × VPhase
  | .start => (coll, .read (Sid.findSession coll c.sessionId c.userId))
  | .read none => (coll, .done false)
  | .read (some session) =>
    if session.verifyAt.isSome then (coll, .done false)
    else if isExpiredJs c.now session.expireAt then (coll, .done false)
    else if session.token != c.token then (coll, .done false)
    else (markVerifiedUpdate coll c.sessionId c.now, .done true)
  | .done r => (coll, .done r)

/-- Shared collection plus the progress of two concurrent calls. -/
structure RaceState where
  coll : List Session
  p0 : VPhase
  p1 : VPhase
deriving DecidableEq

/-- Let one of the two calls take its next atomic step. -/
def raceStep (c0 c1 : VCall) (st : RaceState) (who : Bool) : RaceState :=
  if who then
    let r := vstep c1 st.coll st.p1
    { st with coll := r.1, p1 := r.2 }
  else
    let r := vstep c0 st.coll st.p0
    { st with coll := r.1, p0 := r.2 }

/-- Run two concurrent `verifyToken` calls under a given interleaving
(`false` steps call 0, `true` steps call 1). -/
def runRace (c0 c1 : VCall) (coll : List Session) (sched : List Bool) : RaceState :=
  sched.foldl (raceStep c0 c1) { coll := coll, p0 := .start, p1 := .start }

/-!
Helper lemmas shared by the claim theorems.
-/

theorem find?_append_none {α : Type} (p : α → Bool) (l₁ l₂ : List α)
    (h : l₁.find? p = none) : (l₁ ++ l₂).find? p = l₂.find? p := by
  rw [List.find?_append, h, Option.none_or]

theorem find?_map_invariant {α : Type} (f : α → α) (p : α → Bool) (l : List α)
    (h : ∀ a, p (f a) = p a) :
    (l.map f).find? p = (l.find? p).map f := by
  rw [List.find?_map]
  have hpf : p ∘ f = p := funext h
  rw [hpf]

theorem updFn_pres_conn (id : String) (now : Int) (cid uid : String) (a : Session) :
    ((updFn id now a).connectionId == some cid && (updFn id now a).userId == uid)
      = (a.connectionId == some cid && a.userId == uid) := by
  unfold updFn; split <;> rfl

theorem updFn_pres_sid (id : String) (now : Int) (sid uid : String) (a : Session) :
    ((updFn id now a)._id == sid && (updFn id now a).userId == uid)
      = (a._id == sid && a.userId == uid) := by
  unfold updFn; split <;> rfl

theorem filter_not_filter {α : Type} (p : α → Bool) (l : List α) :
    (l.filter (fun a => !(p a))).filter p = [] := by
  induction l with
  | nil => rfl
  | cons a l ih =>
    by_cases hp : p a = true <;> simp [List.filter_cons, hp, ih]

/-- Coherence of the race model: letting one call take both of its atomic
steps in a row is exactly the sequential `verifyToken`. -/
theorem vstep_twice (c : VCall) (coll : List Session) :
    vstep c (vstep c coll .start).1 (vstep c coll .start).2
      = ((Sid.verifyToken coll c.userId c.sessionId c.token c.now).2,
         VPhase.done (Sid.verifyToken coll c.userId c.sessionId c.token c.now).1) := by
  show vstep c coll (.read (Sid.findSession coll c.sessionId c.userId)) = _
  unfold Sid.verifyToken
  cases h : Sid.findSession coll c.sessionId c.userId with
  | none => rfl
  | some s =>
    simp only [vstep]
    split_ifs <;> rfl

/-- Claim C1, counterexample: the update in `verifyToken` carries no
precondition, so in the interleaving read₀, read₁, write₀, write₁ of two
concurrent `verifyToken` calls with the correct token for the same open,
unexpired session, both calls return `true` — not exactly one. -/
theorem claim_C1_counterexample :
    (runRace ⟨"u1", "s1", "tok", 100⟩ ⟨"u1", "s1", "tok", 100⟩
        [⟨"s1", "tok", "email", "u1", none, some 1000, none, none⟩]
        [false, true, false, true]).p0 = .done true
    ∧ (runRace ⟨"u1", "s1", "tok", 100⟩ ⟨"u1", "s1", "tok", 100⟩
        [⟨"s1", "tok", "email", "u1", none, some 1000, none, none⟩]
        [false, true, false, true]).p1 = .done true :=
  ⟨rfl, rfl⟩

/-- Claim C1, amended: the `verifyToken` state mutation is a plain
find-then-update with no precondition on the update, so "exactly one of two
concurrent calls succeeds" holds only when the calls are serialized (one
call's read happens after the other's write): under the serialized schedule
the first call returns `true` and the second `false`, while under the
overlapping schedule both return `true` (see the counterexample). -/
theorem claim_C1_amended (uid sid tok factor : String) (cx : Option String)
    (ca : Option Int) (e t0 t1 : Int) (hexp : ¬ e < t0) :
    (runRace ⟨uid, sid, tok, t0⟩ ⟨uid, sid, tok, t1⟩
        [⟨sid, tok, factor, uid, cx, some e, none, ca⟩]
        [false, false, true, true]).p0 = .done true
    ∧ (runRace ⟨uid, sid, tok, t0⟩ ⟨uid, sid, tok, t1⟩
        [⟨sid, tok, factor, uid, cx, some e, none, ca⟩]
        [false, false, true, true]).p1 = .done false := by
  constructor <;>
    simp [runRace, raceStep, vstep, Sid.findSession, markVerifiedUpdate, updFn,
          isExpiredJs, hexp, List.find?]

/-- Witness for `claim_C1_amended` at a concrete input. -/
theorem claim_C1_witness :
    ¬ (1000 : Int) < 100
    ∧ (runRace ⟨"u1", "s1", "tok", 100⟩ ⟨"u1", "s1", "tok", 200⟩
        [⟨"s1", "tok", "email", "u1", none, some 1000, none, none⟩]
        [false, false, true, true]).p0 = .done true
    ∧ (runRace ⟨"u1", "s1", "tok", 100⟩ ⟨"u1", "s1", "tok", 200⟩
        [⟨"s1", "tok", "email", "u1", none, some 1000, none, none⟩]
        [false, false, true, true]).p1 = .done false :=
  ⟨by decide,
   (claim_C1_amended "u1" "s1" "tok" "email" none none 1000 100 200 (by decide)).1,
   (claim_C1_amended "u1" "s1" "tok" "email" none none 1000 100 200 (by decide)).2⟩

/-- Claim C2, counterexample: in the sessionId variant, `requestToken` does
not invalidate the prior session.  After two `requestToken` calls for the
same principal, the first session's token still verifies (against the first
session id) and two unverified, unexpired sessions coexist. -/
theorem claim_C2_counterexample :
    ((Sid.verifyToken
        (Sid.requestToken defaultConfig
          (Sid.requestToken defaultConfig [] "u1" "ct" "default" "tokA" "sA" 0).1
          "u1" "ct" "default" "tokB" "sB" 10).1
        "u1" "sA" "tokA" 20).1 = true)
    ∧ (((Sid.requestToken defaultConfig
          (Sid.requestToken defaultConfig [] "u1" "ct" "default" "tokA" "sA" 0).1
          "u1" "ct" "default" "tokB" "sB" 10).1.filter
            (fun s => s.verifyAt == none && !(isExpiredJs 20 s.expireAt))).length = 2) :=
  ⟨rfl, rfl⟩

/-- Claim C2, amended: the invalidate-before-create behaviour belongs to the
connectionId variant only, where the `requestToken` Meteor method runs
`invalidateSession(this.connection.id)` before creating the new session.
There, after the method runs, the new session is the only unverified one for
the connection, and the prior session's token (any token other than the new
one) no longer verifies.  The sessionId variant performs no invalidation
(see the counterexample). -/
theorem claim_C2_amended (cfg : Config) (coll : List Session)
    (cid uid contact factor tok newId oldTok : String) (now t : Int)
    (chanAction : Option CbArg)
    (hreg : (cfg.factors.lookup factor).isNone = false)
    (hdiff : oldTok ≠ tok) :
    (((Conn.requestTokenMethod cfg coll cid uid contact factor tok newId now chanAction).1.filter
        (fun s => s.connectionId == some cid && s.verifyAt == none)).map
          (fun s => s._id) = [newId])
    ∧ ((Conn.verifyToken
          (Conn.requestTokenMethod cfg coll cid uid contact factor tok newId now chanAction).1
          uid cid oldTok t).1 = false) := by
  have hstore : (Conn.requestTokenMethod cfg coll cid uid contact factor tok newId now
        chanAction).1
      = (coll.filter (fun s => !(s.connectionId == some cid && s.verifyAt == none)))
        ++ [{ _id := newId, token := tok, factor := factor, userId := uid, connectionId := some cid, expireAt := some (now + cfg.expiry), verifyAt := none, createdAt := none }] := by
    unfold Conn.requestTokenMethod Conn.requestTokenAsync Conn.createSession
      Conn.invalidateSession
    rw [hreg]
    rfl
  constructor
  · rw [hstore, List.filter_append, filter_not_filter]
    simp
  · rw [hstore]
    rcases hf : Conn.findSession
        ((coll.filter (fun s => !(s.connectionId == some cid && s.verifyAt == none)))
          ++ [{ _id := newId, token := tok, factor := factor, userId := uid, connectionId := some cid, expireAt := some (now + cfg.expiry), verifyAt := none, createdAt := none }]) cid uid
      with _ | s
    · unfold Conn.verifyToken
      rw [hf]
    · unfold Conn.findSession at hf
      have hp := List.find?_some hf
      have hmem := List.mem_of_find?_eq_some hf
      rcases List.mem_append.mp hmem with hmemf | hmemn
      · have hq := (List.mem_filter.mp hmemf).2
        have hcid : (s.connectionId == some cid) = true := Bool.and_elim_left hp
        have hver : (s.verifyAt == none) = false := by
          rcases hb : (s.verifyAt == none) with _ | _
          · rfl
          · exfalso
            rw [hcid, hb] at hq
            simp at hq
        have hvs : s.verifyAt.isSome = true := by
          rcases hv : s.verifyAt with _ | v
          · rw [hv] at hver
            simp at hver
          · rfl
        unfold Conn.verifyToken
        unfold Conn.findSession
        rw [hf]
        simp [hvs]
      · have hs : s = { _id := newId, token := tok, factor := factor, userId := uid, connectionId := some cid, expireAt := some (now + cfg.expiry), verifyAt := none, createdAt := none } := by
          simpa using hmemn
        unfold Conn.verifyToken
        unfold Conn.findSession
        rw [hf, hs]
        rcases hex : isExpiredJs t (some (now + cfg.expiry)) with _ | _
        · have htk : (tok != oldTok) = true := bne_iff_ne.mpr (fun h => hdiff h.symm)
          simp [hex, htk]
        · simp [hex]

/-- Witness for `claim_C2_amended` at a concrete input. -/
theorem claim_C2_witness :
    ((defaultConfig.factors.lookup "default").isNone = false ∧ ("old" : String) ≠ "new")
    ∧ (((Conn.requestTokenMethod defaultConfig [] "c1" "u1" "ct" "default" "new" "sN" 0
          none).1.filter
        (fun s => s.connectionId == some "c1" && s.verifyAt == none)).map
          (fun s => s._id) = ["sN"])
    ∧ ((Conn.verifyToken
          (Conn.requestTokenMethod defaultConfig [] "c1" "u1" "ct" "default" "new" "sN" 0
            none).1
          "u1" "c1" "old" 5).1 = false) :=
  ⟨⟨by decide, by decide⟩,
   (claim_C2_amended defaultConfig [] "c1" "u1" "ct" "default" "new" "sN" "old" 0 5 none
     (by decide) (by decide)).1,
   (claim_C2_amended defaultConfig [] "c1" "u1" "ct" "default" "new" "sN" "old" 0 5 none
     (by decide) (by decide)).2⟩

/-- Claim C3 (confirmed): sequential round trip in the connectionId variant.
After `requestTokenAsync` creates the session (no open session existed for
the connection and principal), a first `verifyToken` with the generated
token within the expiry window returns `true`, and any later `verifyToken`
for that same session with the same correct token returns `false`: the
session is already verified, so the token verifies at most once. -/
theorem claim_C3 (cfg : Config) (coll : List Session)
    (cid uid contact factor tok newId : String) (now t1 t2 : Int)
    (chanAction : Option CbArg)
    (hfresh : Conn.findSession coll cid uid = none)
    (ht1 : ¬ now + cfg.expiry < t1) :
    ((Conn.verifyToken
        (Conn.requestTokenAsync cfg coll cid uid contact factor tok newId now chanAction).1
        uid cid tok t1).1 = true)
    ∧ ((Conn.verifyToken
          (Conn.verifyToken
            (Conn.requestTokenAsync cfg coll cid uid contact factor tok newId now chanAction).1
            uid cid tok t1).2
          uid cid tok t2).1 = false) := by
  have hstore : (Conn.requestTokenAsync cfg coll cid uid contact factor tok newId now
        chanAction).1
      = coll ++ [{ _id := newId, token := tok, factor := factor, userId := uid, connectionId := some cid, expireAt := some (now + cfg.expiry), verifyAt := none, createdAt := none }] := rfl
  have hfind1 : Conn.findSession
      (coll ++ [{ _id := newId, token := tok, factor := factor, userId := uid, connectionId := some cid, expireAt := some (now + cfg.expiry), verifyAt := none, createdAt := none }]) cid uid
      = some { _id := newId, token := tok, factor := factor, userId := uid, connectionId := some cid, expireAt := some (now + cfg.expiry), verifyAt := none, createdAt := none } := by
    unfold Conn.findSession at hfresh ⊢
    rw [find?_append_none _ _ _ hfresh]
    rw [List.find?_cons_of_pos]
    simp
  have hv1 : Conn.verifyToken
      (coll ++ [{ _id := newId, token := tok, factor := factor, userId := uid, connectionId := some cid, expireAt := some (now + cfg.expiry), verifyAt := none, createdAt := none }])
      uid cid tok t1
      = (true, markVerifiedUpdate
          (coll ++ [{ _id := newId, token := tok, factor := factor, userId := uid, connectionId := some cid, expireAt := some (now + cfg.expiry), verifyAt := none, createdAt := none }])
          newId t1) := by
    unfold Conn.verifyToken
    rw [hfind1]
    simp [isExpiredJs, ht1]
  have hv1b : (Conn.verifyToken
      (coll ++ [{ _id := newId, token := tok, factor := factor, userId := uid, connectionId := some cid, expireAt := some (now + cfg.expiry), verifyAt := none, createdAt := none }])
      uid cid tok t1).2
      = markVerifiedUpdate
          (coll ++ [{ _id := newId, token := tok, factor := factor, userId := uid, connectionId := some cid, expireAt := some (now + cfg.expiry), verifyAt := none, createdAt := none }])
          newId t1 := by
    rw [hv1]
  have hfind2 : Conn.findSession
      (markVerifiedUpdate
        (coll ++ [{ _id := newId, token := tok, factor := factor, userId := uid, connectionId := some cid, expireAt := some (now + cfg.expiry), verifyAt := none, createdAt := none }])
        newId t1) cid uid
      = some (updFn newId t1 { _id := newId, token := tok, factor := factor, userId := uid, connectionId := some cid, expireAt := some (now + cfg.expiry), verifyAt := none, createdAt := none }) := by
    unfold Conn.findSession markVerifiedUpdate
    rw [find?_map_invariant _ _ _ (fun a => updFn_pres_conn newId t1 cid uid a)]
    unfold Conn.findSession at hfind1
    rw [hfind1]
    rfl
  have hupd : updFn newId t1 { _id := newId, token := tok, factor := factor, userId := uid, connectionId := some cid, expireAt := some (now + cfg.expiry), verifyAt := none, createdAt := none }
      = { _id := newId, token := tok, factor := factor, userId := uid, connectionId := some cid, expireAt := none, verifyAt := some t1, createdAt := none } := by
    unfold updFn
    rw [if_pos (beq_self_eq_true newId)]
  constructor
  · rw [hstore, hv1]
  · rw [hstore, hv1b]
    unfold Conn.verifyToken
    rw [hfind2, hupd]
    simp

/-- Witness for `claim_C3` at a concrete input. -/
theorem claim_C3_witness :
    (Conn.findSession [] "c1" "u1" = none ∧ ¬ (0 : Int) + defaultConfig.expiry < 10)
    ∧ ((Conn.verifyToken
        (Conn.requestTokenAsync defaultConfig [] "c1" "u1" "ct" "default" "tok" "s1" 0 none).1
        "u1" "c1" "tok" 10).1 = true)
    ∧ ((Conn.verifyToken
          (Conn.verifyToken
            (Conn.requestTokenAsync defaultConfig [] "c1" "u1" "ct" "default" "tok" "s1" 0 none).1
            "u1" "c1" "tok" 10).2
          "u1" "c1" "tok" 20).1 = false) :=
  ⟨⟨by decide, by decide⟩,
   (claim_C3 defaultConfig [] "c1" "u1" "ct" "default" "tok" "s1" 0 10 20 none
     (by decide) (by decide)).1,
   (claim_C3 defaultConfig [] "c1" "u1" "ct" "default" "tok" "s1" 0 10 20 none
     (by decide) (by decide)).2⟩

/-- Claim C4 (confirmed, both variants): `verifyToken` fails by returning
`false` — the embedding of its body is a total function into
`Bool × List Session`, never an exception — and it returns `false` exactly
when no session is found, or the session is already verified, or its
`expireAt` has passed, or the submitted token is not exactly equal to the
stored token; in every failure case the returned value is the same uniform
`false` and the collection is left unchanged. -/
theorem claim_C4 (coll : List Session) (uid cid sid tok : String) (now : Int) :
    (((Conn.verifyToken coll uid cid tok now).1 = false) ↔
      (Conn.findSession coll cid uid = none ∨
        ∃ s, Conn.findSession coll cid uid = some s ∧
          (s.verifyAt ≠ none ∨ isExpiredJs now s.expireAt = true ∨ s.token ≠ tok)))
    ∧ ((Conn.verifyToken coll uid cid tok now).1 = false →
        (Conn.verifyToken coll uid cid tok now).2 = coll)
    ∧ (((Sid.verifyToken coll uid sid tok now).1 = false) ↔
      (Sid.findSession coll sid uid = none ∨
        ∃ s, Sid.findSession coll sid uid = some s ∧
          (s.verifyAt ≠ none ∨ isExpiredJs now s.expireAt = true ∨ s.token ≠ tok)))
    ∧ ((Sid.verifyToken coll uid sid tok now).1 = false →
        (Sid.verifyToken coll uid sid tok now).2 = coll) := by
  refine ⟨?_, ?_, ?_, ?_⟩
  · unfold Conn.verifyToken
    rcases hf : Conn.findSession coll cid uid with _ | s
    · simp
    · rcases hv : s.verifyAt with _ | v
      · by_cases hex : isExpiredJs now s.expireAt
        · simp [hv, hex]
        · by_cases htk : s.token = tok
          · simp [hv, hex, htk]
          · simp [hv, hex, htk]
      · simp [hv]
  · unfold Conn.verifyToken
    rcases hf : Conn.findSession coll cid uid with _ | s
    · simp
    · rcases hv : s.verifyAt with _ | v
      · by_cases hex : isExpiredJs now s.expireAt
        · simp [hv, hex]
        · by_cases htk : s.token = tok
          · simp [hv, hex, htk]
          · simp [hv, hex, htk]
      · simp [hv]
  · unfold Sid.verifyToken
    rcases hf : Sid.findSession coll sid uid with _ | s
    · simp
    · rcases hv : s.verifyAt with _ | v
      · by_cases hex : isExpiredJs now s.expireAt
        · simp [hv, hex]
        · by_cases htk : s.token = tok
          · simp [hv, hex, htk]
          · simp [hv, hex, htk]
      · simp [hv]
  · unfold Sid.verifyToken
    rcases hf : Sid.findSession coll sid uid with _ | s
    · simp
    · rcases hv : s.verifyAt with _ | v
      · by_cases hex : isExpiredJs now s.expireAt
        · simp [hv, hex]
        · by_cases htk : s.token = tok
          · simp [hv, hex, htk]
          · simp [hv, hex, htk]
      · simp [hv]

/-- Witness for `claim_C4` at a concrete input (an already-verified
session: the lookup succeeds, the call fails uniformly with `false`, and
the store is untouched). -/
theorem claim_C4_witness :
    ((Conn.verifyToken [⟨"s1", "tok", "email", "u1", some "c1", none, some 5, none⟩]
        "u1" "c1" "tok" 10).1 = false)
    ∧ ((Conn.verifyToken [⟨"s1", "tok", "email", "u1", some "c1", none, some 5, none⟩]
        "u1" "c1" "tok" 10).2 = [⟨"s1", "tok", "email", "u1", some "c1", none, some 5, none⟩])
    ∧ ((Sid.verifyToken [⟨"s1", "tok", "email", "u1", some "c1", none, some 5, none⟩]
        "u1" "s1" "tok" 10).1 = false)
    ∧ ((Sid.verifyToken [⟨"s1", "tok", "email", "u1", some "c1", none, some 5, none⟩]
        "u1" "s1" "tok" 10).2 = [⟨"s1", "tok", "email", "u1", some "c1", none, some 5, none⟩]) := by
  have h := claim_C4 [⟨"s1", "tok", "email", "u1", some "c1", none, some 5, none⟩]
    "u1" "c1" "s1" "tok" 10
  refine ⟨h.1.mpr ?_, h.2.1 (h.1.mpr ?_), h.2.2.1.mpr ?_, h.2.2.2 (h.2.2.1.mpr ?_)⟩ <;>
    exact Or.inr ⟨⟨"s1", "tok", "email", "u1", some "c1", none, some 5, none⟩,
      by decide, by decide⟩

/-- Claim C5, counterexample: in the sessionId variant,
`invalidateSession(sessionId)` is `collection.remove({_id: sessionId})`
with no `verifyAt` guard, so it removes a *verified* session (here verified
at time 50) immediately — well before any retention window elapses —
contradicting the claim that no later operation, including
`InvalidateSession`, modifies or removes a verified session. -/
theorem claim_C5_counterexample :
    (Sid.invalidateSession [⟨"s1", "tok", "email", "u1", none, none, some 50, none⟩] "s1").1 = 1
    ∧ (Sid.invalidateSession [⟨"s1", "tok", "email", "u1", none, none, some 50, none⟩] "s1").2 = []
    ∧ (⟨"s1", "tok", "email", "u1", none, none, some 50, none⟩ : Session).verifyAt = some 50 :=
  ⟨rfl, rfl, rfl⟩

/-- Claim C5, amended: a successful verification updates the store exactly
by the `$set verifyAt`/`$unset expireAt` modifier at the found session's id;
that modifier changes no field other than `verifyAt` and `expireAt` of any
document (token, factor, principal id, connection scope, `createdAt` are
unchanged); and the connectionId variant's `invalidateSession` never removes
a verified session.  The sessionId variant's `invalidateSession`, however,
removes the named session regardless of verification (see the
counterexample). -/
theorem claim_C5_amended (coll : List Session) (uid cid tok : String) (now : Int) :
    ((Conn.verifyToken coll uid cid tok now).1 = true →
      ∃ s, Conn.findSession coll cid uid = some s ∧
        (Conn.verifyToken coll uid cid tok now).2 = markVerifiedUpdate coll s._id now)
    ∧ (∀ (id : String) (s' : Session), s' ∈ markVerifiedUpdate coll id now →
        ∃ s, s ∈ coll ∧ s'._id = s._id ∧ s'.token = s.token ∧ s'.factor = s.factor ∧
          s'.userId = s.userId ∧ s'.connectionId = s.connectionId ∧
          s'.createdAt = s.createdAt ∧
          (s' = s ∨ (s'.verifyAt = some now ∧ s'.expireAt = none)))
    ∧ (∀ s, s ∈ coll → s.verifyAt ≠ none → s ∈ (Conn.invalidateSession coll cid).2) := by
  refine ⟨?_, ?_, ?_⟩
  · unfold Conn.verifyToken
    rcases hf : Conn.findSession coll cid uid with _ | s
    · simp
    · rcases hv : s.verifyAt with _ | v
      · by_cases hex : isExpiredJs now s.expireAt
        · simp [hv, hex]
        · by_cases htk : s.token = tok
          · simp [hv, hex, htk]
          · simp [hv, hex, htk]
      · simp [hv]
  · intro id s' hmem
    rcases List.mem_map.mp hmem with ⟨a, ha, rfl⟩
    refine ⟨a, ha, ?_, ?_, ?_, ?_, ?_, ?_, ?_⟩ <;> unfold updFn <;> split <;> simp
  · intro s hs hv
    apply List.mem_filter.mpr
    refine ⟨hs, ?_⟩
    have hb : (s.verifyAt == none) = false := beq_eq_false_iff_ne.mpr hv
    simp [hb]

/-- Witness for `claim_C5_amended` at concrete inputs: an open session that
verifies (store updated by the modifier), and a verified session that
survives the connectionId variant's `invalidateSession`. -/
theorem claim_C5_witness :
    (∃ s, Conn.findSession [⟨"s1", "tok", "email", "u1", some "c1", some 1000, none, none⟩]
        "c1" "u1" = some s ∧
      (Conn.verifyToken [⟨"s1", "tok", "email", "u1", some "c1", some 1000, none, none⟩]
          "u1" "c1" "tok" 10).2
        = markVerifiedUpdate [⟨"s1", "tok", "email", "u1", some "c1", some 1000, none, none⟩]
            s._id 10)
    ∧ (⟨"s2", "tok", "email", "u1", some "c1", none, some 5, none⟩ : Session) ∈
        (Conn.invalidateSession [⟨"s2", "tok", "email", "u1", some "c1", none, some 5, none⟩]
          "c1").2 :=
  ⟨(claim_C5_amended [⟨"s1", "tok", "email", "u1", some "c1", some 1000, none, none⟩]
      "u1" "c1" "tok" 10).1 (by decide),
   (claim_C5_amended [⟨"s2", "tok", "email", "u1", some "c1", none, some 5, none⟩]
      "u1" "c1" "tok" 10).2.2
     ⟨"s2", "tok", "email", "u1", some "c1", none, some 5, none⟩ (by decide) (by decide)⟩

/-- Claim C6 (confirmed, connectionId variant): `requestTokenAsync` inserts
the session before it calls `sendToken`, and no path removes it afterwards:
whatever the delivery channel does (`chanAction` — an error, a success, or
never calling back so that only the timeout fires), the resulting store is
the same one, `assertOpenSession` still returns `true` for the principal
and connection within the expiry window, and the token still verifies. -/
theorem claim_C6 (cfg : Config) (coll : List Session)
    (cid uid contact factor tok newId : String) (now t : Int) (chanAction : Option CbArg)
    (hfresh : Conn.findSession coll cid uid = none)
    (ht : ¬ now + cfg.expiry < t) :
    ((Conn.requestTokenAsync cfg coll cid uid contact factor tok newId now chanAction).1
      = (Conn.requestTokenAsync cfg coll cid uid contact factor tok newId now none).1)
    ∧ Conn.assertOpenSession
        (Conn.requestTokenAsync cfg coll cid uid contact factor tok newId now chanAction).1
        uid cid t = true
    ∧ (Conn.verifyToken
        (Conn.requestTokenAsync cfg coll cid uid contact factor tok newId now chanAction).1
        uid cid tok t).1 = true := by
  have hstore : (Conn.requestTokenAsync cfg coll cid uid contact factor tok newId now
        chanAction).1
      = coll ++ [{ _id := newId, token := tok, factor := factor, userId := uid, connectionId := some cid, expireAt := some (now + cfg.expiry), verifyAt := none, createdAt := none }] := rfl
  have hfind1 : Conn.findSession
      (coll ++ [{ _id := newId, token := tok, factor := factor, userId := uid, connectionId := some cid, expireAt := some (now + cfg.expiry), verifyAt := none, createdAt := none }]) cid uid
      = some { _id := newId, token := tok, factor := factor, userId := uid, connectionId := some cid, expireAt := some (now + cfg.expiry), verifyAt := none, createdAt := none } := by
    unfold Conn.findSession at hfresh ⊢
    rw [find?_append_none _ _ _ hfresh]
    rw [List.find?_cons_of_pos]
    simp
  refine ⟨rfl, ?_, ?_⟩
  · rw [hstore]
    unfold Conn.assertOpenSession
    rw [hfind1]
    simp [isExpiredJs, ht]
  · rw [hstore]
    unfold Conn.verifyToken
    rw [hfind1]
    simp [isExpiredJs, ht]

/-- Witness for `claim_C6` at a concrete input (a channel that never calls
back, i.e. the delivery times out). -/
theorem claim_C6_witness :
    (Conn.findSession [] "c1" "u1" = none ∧ ¬ (0 : Int) + defaultConfig.expiry < 10)
    ∧ Conn.assertOpenSession
        (Conn.requestTokenAsync defaultConfig [] "c1" "u1" "ct" "default" "tok" "s1" 0 none).1
        "u1" "c1" 10 = true
    ∧ (Conn.verifyToken
        (Conn.requestTokenAsync defaultConfig [] "c1" "u1" "ct" "default" "tok" "s1" 0 none).1
        "u1" "c1" "tok" 10).1 = true :=
  ⟨⟨by decide, by decide⟩,
   (claim_C6 defaultConfig [] "c1" "u1" "ct" "default" "tok" "s1" 0 10 none
     (by decide) (by decide)).2.1,
   (claim_C6 defaultConfig [] "c1" "u1" "ct" "default" "tok" "s1" 0 10 none
     (by decide) (by decide)).2.2⟩

/-- Claim C7, counterexample: the document `createSession` inserts (either
variant) has no `createdAt` field at all — at a concrete input, every
record in the resulting collection has `createdAt` absent — so a session
record does not "carry both a createdAt and an expireAt timestamp". -/
theorem claim_C7_counterexample :
    ((Sid.createSession defaultConfig [] "u1" "tok" "email" "sA" 100).2.map
      (fun s => s.createdAt)) = [none]
    ∧ ((Conn.createSession defaultConfig [] "c1" "u1" "tok" "email" "sA" 100).2.map
      (fun s => s.createdAt)) = [none] :=
  ⟨rfl, rfl⟩

/-- Claim C7, amended: the session record created by RequestToken carries an
`expireAt` timestamp equal to the creation-time clock reading plus the
configured expiry, but no `createdAt` field is stored (both variants). -/
theorem claim_C7_amended (cfg : Config) (coll : List Session)
    (cid uid tok factor newId : String) (now : Int)
    (hfresh : ∀ s ∈ coll, s._id ≠ newId) :
    (∃ r, (Conn.createSession cfg coll cid uid tok factor newId now).2.find?
        (fun s => s._id == newId) = some r
      ∧ r.expireAt = some (now + cfg.expiry) ∧ r.createdAt = none ∧ r.token = tok)
    ∧ (∃ r, (Sid.createSession cfg coll uid tok factor newId now).2.find?
        (fun s => s._id == newId) = some r
      ∧ r.expireAt = some (now + cfg.expiry) ∧ r.createdAt = none ∧ r.token = tok) := by
  have hnone : coll.find? (fun s => s._id == newId) = none := by
    rw [List.find?_eq_none]
    intro x hx
    simp [hfresh x hx]
  constructor
  · refine ⟨{ _id := newId, token := tok, factor := factor, userId := uid, connectionId := some cid, expireAt := some (now + cfg.expiry), verifyAt := none, createdAt := none }, ?_, rfl, rfl, rfl⟩
    show (coll ++ [({ _id := newId, token := tok, factor := factor, userId := uid, connectionId := some cid, expireAt := some (now + cfg.expiry), verifyAt := none, createdAt := none } : Session)]).find?
        (fun (s : Session) => s._id == newId)
      = some { _id := newId, token := tok, factor := factor, userId := uid, connectionId := some cid, expireAt := some (now + cfg.expiry), verifyAt := none, createdAt := none }
    rw [find?_append_none _ _ _ hnone, List.find?_cons_of_pos]
    simp
  · refine ⟨{ _id := newId, token := tok, factor := factor, userId := uid, connectionId := none, expireAt := some (now + cfg.expiry), verifyAt := none, createdAt := none }, ?_, rfl, rfl, rfl⟩
    show (coll ++ [({ _id := newId, token := tok, factor := factor, userId := uid, connectionId := none, expireAt := some (now + cfg.expiry), verifyAt := none, createdAt := none } : Session)]).find?
        (fun (s : Session) => s._id == newId)
      = some { _id := newId, token := tok, factor := factor, userId := uid, connectionId := none, expireAt := some (now + cfg.expiry), verifyAt := none, createdAt := none }
    rw [find?_append_none _ _ _ hnone, List.find?_cons_of_pos]
    simp

/-- Witness for `claim_C7_amended` at a concrete input. -/
theorem claim_C7_witness :
    (∀ s ∈ ([] : List Session), s._id ≠ "sA")
    ∧ (∃ r, (Conn.createSession defaultConfig [] "c1" "u1" "tok" "email" "sA" 100).2.find?
        (fun s => s._id == "sA") = some r
      ∧ r.expireAt = some (100 + defaultConfig.expiry) ∧ r.createdAt = none ∧ r.token = "tok")
    ∧ (∃ r, (Sid.createSession defaultConfig [] "u1" "tok" "email" "sA" 100).2.find?
        (fun s => s._id == "sA") = some r
      ∧ r.expireAt = some (100 + defaultConfig.expiry) ∧ r.createdAt = none ∧ r.token = "tok") :=
  ⟨by decide,
   (claim_C7_amended defaultConfig [] "c1" "u1" "tok" "email" "sA" 100 (by decide)).1,
   (claim_C7_amended defaultConfig [] "c1" "u1" "tok" "email" "sA" 100 (by decide)).2⟩

/-- Lemma: the `_.each` over the supplied factors throws nowhere iff every supplied
factor passes `addFactor`'s shape check. -/
theorem addFactors_err_eq_none_iff (cfg : Config) (fs : List (String × FactorCfg)) :
    (addFactors cfg fs).2 = none ↔ ∀ kf ∈ fs, addFactorOk kf.2 = true := by
  induction fs generalizing cfg with
  | nil => simp [addFactors]
  | cons kf rest ih =>
    rcases kf with ⟨k, f⟩
    by_cases hok : addFactorOk f = true
    · simp [addFactors, addFactor, hok, ih]
    · simp [addFactors, addFactor, hok]

/-- Claim C8, counterexample: `Match.Integer` does not test positivity, so
a configuration whose `expiry` is the non-positive integer `-1` passes
`validateConfig` without error (and is merged into the shared config) —
the claim that any non-positive numeric setting is rejected is false. -/
theorem claim_C8_counterexample :
    (validateConfig defaultConfig
      ⟨[], none, none, none, some (.int (-1)), none, none, none, none⟩).2 = none
    ∧ (validateConfig defaultConfig
      ⟨[], none, none, none, some (.int (-1)), none, none, none, none⟩).1.expiry = -1 :=
  ⟨rfl, rfl⟩

/-- Claim C8, amended: `validateConfig` completes without throwing iff every
supplied delivery channel has a `send` function of the right shape and every
numeric setting (expiry, retain, requestInterval, requestCount) is absent or
an *integer* — any sign is accepted, positivity is not enforced (see the
counterexample); a channel lacking a send capability or a non-integer
numeric setting makes the setup throw and not complete. -/
theorem claim_C8_amended (cfg : Config) (c : ConfigIn) :
    (validateConfig cfg c).2 = none ↔
      ((∀ kf ∈ c.factors, addFactorOk kf.2 = true) ∧ checkConfigShape c = true) := by
  unfold validateConfig
  have hiff := addFactors_err_eq_none_iff cfg c.factors
  rcases ha : addFactors cfg c.factors with ⟨cfg', err⟩
  rw [ha] at hiff
  rcases err with _ | e
  · have hall : ∀ kf ∈ c.factors, addFactorOk kf.2 = true := hiff.mp rfl
    by_cases hs : checkConfigShape c = true
    · simp [hs]
      exact fun a b hab => hall (a, b) hab
    · simp [hs]
  · have hnall : ¬ ∀ kf ∈ c.factors, addFactorOk kf.2 = true := by
      intro hall
      have hcontra := hiff.mpr hall
      simp at hcontra
    constructor
    · intro hfalse
      exact absurd hfalse (by simp)
    · intro hand
      exact absurd hand.1 hnall

/-- Claim C9, counterexample: `this.config = defaultConfig` stores a
reference to the single module-level object, so constructing a second
`TokenLogin` instance in the same process mutates the configuration
observed by the first: instance A observes `expiry = 1000` after its own
construction, but `expiry = 9999` after instance B is constructed. -/
theorem claim_C9_counterexample :
    (observeConfig
      (constructInstance ⟨defaultConfig, []⟩ "A"
        ⟨[], none, none, none, some (.int 1000), none, none, none, none⟩).1 "A").expiry = 1000
    ∧ (observeConfig
      (constructInstance
        (constructInstance ⟨defaultConfig, []⟩ "A"
          ⟨[], none, none, none, some (.int 1000), none, none, none, none⟩).1 "B"
        ⟨[], none, none, none, some (.int 9999), none, none, none, none⟩).1 "A").expiry = 9999 :=
  ⟨rfl, rfl⟩

/-- Claim C9, amended: the configuration is *not* private to an instance:
every instance aliases the module-level `defaultConfig` object, and any
later construction that overrides `expiry` with an integer `n` succeeds and
changes the `expiry` observed by every existing instance to `n` (the other
fields being the merge of the previous shared state). -/
theorem claim_C9_amended (st : ProcState) (idA idB : String) (n : Int) :
    ((constructInstance st idB
        ⟨[], none, none, none, some (.int n), none, none, none, none⟩).2 = none)
    ∧ (observeConfig
        (constructInstance st idB
          ⟨[], none, none, none, some (.int n), none, none, none, none⟩).1 idA
      = { st.sharedConfig with expiry := n }) :=
  ⟨rfl, rfl⟩

/-- Claim C10, counterexample: in the connectionId variant, `sendToken`
schedules the timeout timer *before* dereferencing the missing channel, and
the `TypeError` thrown afterwards does not clear the timer, so the caller's
callback *is* eventually invoked — with a delivery-timeout failure — even
on the unsupported-factor path; "never invokes the caller's callback" is
false. -/
theorem claim_C10_counterexample :
    eventualCalls (Conn.sendToken defaultConfig "c1" "tok1" "sms" none)
      = [.err (timeoutMsg "c1" "sms")]
    ∧ (Conn.sendToken defaultConfig "c1" "tok1" "sms" none).timerScheduled
      = some (1000, .err (timeoutMsg "c1" "sms")) :=
  ⟨rfl, rfl⟩

/-- Claim C10, amended: for an unregistered factor, `sendToken` logs the
secret token to the console and then throws a `TypeError` (dereferencing
the undefined channel), returning no `UnsupportedFactor` or
delivery-failure result and invoking nothing synchronously; in the
sessionId variant nothing more happens, but in the connectionId variant the
timeout timer scheduled before the throw later invokes the caller's
callback with a delivery-timeout error. -/
theorem claim_C10_amended (cfg : Config) (contact tok factor : String)
    (chanAction : Option CbArg)
    (hunreg : cfg.factors.lookup factor = none) :
    (Sid.sendToken cfg contact tok factor
      = ([.notSupported factor, .tokenPrinted tok], some .typeError))
    ∧ ((Conn.sendToken cfg contact tok factor chanAction).logs
        = [.notSupported factor, .tokenPrinted tok])
    ∧ ((Conn.sendToken cfg contact tok factor chanAction).thrown = some .typeError)
    ∧ ((Conn.sendToken cfg contact tok factor chanAction).syncCalls = [])
    ∧ (eventualCalls (Conn.sendToken cfg contact tok factor chanAction)
        = [.err (timeoutMsg contact factor)]) := by
  unfold Sid.sendToken Conn.sendToken
  rw [hunreg]
  exact ⟨rfl, rfl, rfl, rfl, rfl⟩

/-- Witness for `claim_C10_amended` at a concrete input. -/
theorem claim_C10_witness :
    defaultConfig.factors.lookup "sms" = none
    ∧ (Sid.sendToken defaultConfig "c1" "tok1" "sms"
        = ([.notSupported "sms", .tokenPrinted "tok1"], some .typeError))
    ∧ ((Conn.sendToken defaultConfig "c1" "tok1" "sms" none).thrown = some .typeError) :=
  ⟨by decide,
   (claim_C10_amended defaultConfig "c1" "tok1" "sms" none (by decide)).1,
   (claim_C10_amended defaultConfig "c1" "tok1" "sms" none (by decide)).2.2.1⟩

/-- Witness for `claim_C8_amended` at a concrete input: a well-shaped
override (a factor with a send function, a string profile) is accepted. -/
theorem claim_C8_witness :
    (validateConfig defaultConfig
      ⟨[("telegram", ⟨some (.fn "tgSend"), none⟩)], some (.fn "gen"), none, none,
        none, none, none, none, some (.str "TwoFactorLogin")⟩).2 = none :=
  (claim_C8_amended defaultConfig
    ⟨[("telegram", ⟨some (.fn "tgSend"), none⟩)], some (.fn "gen"), none, none,
      none, none, none, none, some (.str "TwoFactorLogin")⟩).mpr ⟨by decide, by decide⟩

/-- Witness for `claim_C9_amended` at a concrete input. -/
theorem claim_C9_witness :
    ((constructInstance ⟨defaultConfig, ["A"]⟩ "B"
        ⟨[], none, none, none, some (.int 42), none, none, none, none⟩).2 = none)
    ∧ (observeConfig
        (constructInstance ⟨defaultConfig, ["A"]⟩ "B"
          ⟨[], none, none, none, some (.int 42), none, none, none, none⟩).1 "A"
      = { defaultConfig with expiry := 42 }) :=
  ⟨(claim_C9_amended ⟨defaultConfig, ["A"]⟩ "A" "B" 42).1,
   (claim_C9_amended ⟨defaultConfig, ["A"]⟩ "A" "B" 42).2⟩
